import Mathlib

/-!
Shallow embedding of the FTP control-connection server in src/main.rs:
the response-code catalog, the command parser, the per-client session
dispatch, the passive-mode negotiation and the directory-listing code,
together with theorems settling the specification claims against it.

Rust strings and byte vectors are modelled as lists of naturals (one per
byte); a panicking unwrap or expect is modelled as the value none.
-/

namespace FtpSpec

/-- Bytes are modelled as natural numbers (values 0..255 where relevant). -/
abbrev Byte := Nat

/-- Byte strings: the contents of Rust Vec of u8, String and str values. -/
abbrev ByteStr := List Byte

/-- Encodes an ASCII Lean string literal as its byte sequence. -/
def ascii (s : String) : ByteStr := s.data.map Char.toNat

/-- Embeds the ResultCode enum (src/main.rs:10-50). -/
inductive ResultCode where
  | RestartMarkerReply
  | ServiceReadInXXXMinutes
  | DataConnectionAlreadyOpen
  | FileStatusOk
  | Ok
  | CommandNotImplementedSuperfluousAtThisSite
  | SystemStatus
  | DirectoryStatus
  | FileStatus
  | HelpMessage
  | SystemType
  | ServiceReadyForNewUser
  | ServiceClosingControlConnection
  | DataConnectionOpen
  | ClosingDataConnection
  | EnteringPassiveMode
  | UserLoggedIn
  | RequestedFileActionOkay
  | PATHNAMECreated
  | UserNameOkayNeedPassword
  | NeedAccountForLogin
  | RequestedFileActionPendingFurtherInformation
  | ServiceNotAvailable
  | CantOpenDataConnection
  | ConnectionClosed
  | FileBusy
  | LocalErrorInProcessing
  | InsufficientStorageSpace
  | UnknownCommand
  | InvalidParameterOrArgument
  | CommandNotImplemented
  | BadSequenceOfCommands
  | CommandNotImplementedForThatParameter
  | NotLoggedIn
  | NeedAccountForStoringFiles
  | FileNotFound
  | PageTypeUnknown
  | ExceededStorageAllocation
  | FileNameNotAllowed
  deriving DecidableEq

/-- Numeric value of each ResultCode, as assigned by the repr(u32) enum
(src/main.rs:10-50). -/
def ResultCode.num : ResultCode → Nat
  | .RestartMarkerReply => 110
  | .ServiceReadInXXXMinutes => 120
  | .DataConnectionAlreadyOpen => 125
  | .FileStatusOk => 150
  | .Ok => 200
  | .CommandNotImplementedSuperfluousAtThisSite => 202
  | .SystemStatus => 211
  | .DirectoryStatus => 212
  | .FileStatus => 213
  | .HelpMessage => 214
  | .SystemType => 215
  | .ServiceReadyForNewUser => 220
  | .ServiceClosingControlConnection => 221
  | .DataConnectionOpen => 225
  | .ClosingDataConnection => 226
  | .EnteringPassiveMode => 227
  | .UserLoggedIn => 230
  | .RequestedFileActionOkay => 250
  | .PATHNAMECreated => 257
  | .UserNameOkayNeedPassword => 331
  | .NeedAccountForLogin => 332
  | .RequestedFileActionPendingFurtherInformation => 350
  | .ServiceNotAvailable => 421
  | .CantOpenDataConnection => 425
  | .ConnectionClosed => 426
  | .FileBusy => 450
  | .LocalErrorInProcessing => 451
  | .InsufficientStorageSpace => 452
  | .UnknownCommand => 500
  | .InvalidParameterOrArgument => 501
  | .CommandNotImplemented => 502
  | .BadSequenceOfCommands => 503
  | .CommandNotImplementedForThatParameter => 504
  | .NotLoggedIn => 530
  | .NeedAccountForStoringFiles => 532
  | .FileNotFound => 550
  | .PageTypeUnknown => 551
  | .ExceededStorageAllocation => 552
  | .FileNameNotAllowed => 553

/-- Embeds the Command enum (src/main.rs:53-64). The Rust variant named
Type is rendered TypeCmd because Type is a reserved word in Lean. -/
inductive Command where
  | Auth
  | List
  | Syst
  | NoOp
  | Pwd
  | TypeCmd
  | Pasv
  | Unknown (raw : ByteStr)
  | User (name : ByteStr)
  deriving DecidableEq

/-- Embeds to_uppercase (src/main.rs:113-119): ASCII lowercase bytes are
shifted down by 32, all other bytes are left alone. -/
def to_uppercase (data : ByteStr) : ByteStr :=
  data.map fun b => if 97 ≤ b && b ≤ 122 then b - 32 else b

/-- Models slice::split on the space byte (0x20), as used by Command::new
(src/main.rs:89): the subslices between separators, with an empty slice
produced for the empty input and around adjacent or trailing separators.
The result is always nonempty. -/
def splitOnSpace : ByteStr → List ByteStr
  | [] => [[]]
  | b :: rest =>
    if b = 32 then [] :: splitOnSpace rest
    else
      match splitOnSpace rest with
      | g :: gs => (b :: g) :: gs
      | [] => [[b]]

/-- Whether a byte is a UTF-8 continuation byte (0x80..0xBF). -/
def contByte (b : Byte) : Bool := 0x80 ≤ b && b ≤ 0xBF

/-- Validity of a byte sequence as UTF-8, exactly as checked by Rust's
String::from_utf8 and str::from_utf8, which Command::new calls
(src/main.rs:102,107): ASCII, two-, three- and four-byte sequences with
overlong encodings, surrogates and values above U+10FFFF rejected. -/
def validUtf8 : ByteStr → Bool
  | [] => true
  | b :: l =>
    if b ≤ 0x7F then validUtf8 l
    else if 0xC2 ≤ b && b ≤ 0xDF then
      match l with
      | c1 :: l1 => contByte c1 && validUtf8 l1
      | [] => false
    else if b = 0xE0 then
      match l with
      | c1 :: c2 :: l2 => (0xA0 ≤ c1 && c1 ≤ 0xBF) && contByte c2 && validUtf8 l2
      | _ => false
    else if (0xE1 ≤ b && b ≤ 0xEC) || b = 0xEE || b = 0xEF then
      match l with
      | c1 :: c2 :: l2 => contByte c1 && contByte c2 && validUtf8 l2
      | _ => false
    else if b = 0xED then
      match l with
      | c1 :: c2 :: l2 => (0x80 ≤ c1 && c1 ≤ 0x9F) && contByte c2 && validUtf8 l2
      | _ => false
    else if b = 0xF0 then
      match l with
      | c1 :: c2 :: c3 :: l3 =>
          (0x90 ≤ c1 && c1 ≤ 0xBF) && contByte c2 && contByte c3 && validUtf8 l3
      | _ => false
    else if 0xF1 ≤ b && b ≤ 0xF3 then
      match l with
      | c1 :: c2 :: c3 :: l3 => contByte c1 && contByte c2 && contByte c3 && validUtf8 l3
      | _ => false
    else if b = 0xF4 then
      match l with
      | c1 :: c2 :: c3 :: l3 =>
          (0x80 ≤ c1 && c1 ≤ 0x8F) && contByte c2 && contByte c3 && validUtf8 l3
      | _ => false
    else false

/-- The verb of an input line: the first chunk produced by the split
(always present, so the expect on src/main.rs:92 never fires), uppercased
in place (src/main.rs:92-93). -/
def verbOf (input : ByteStr) : ByteStr :=
  to_uppercase ((splitOnSpace input).headD [])

/-- The argument of an input line: the second chunk produced by the split,
if any (the iter.next() on src/main.rs:96). -/
def argOf (input : ByteStr) : Option ByteStr :=
  ((splitOnSpace input).drop 1).head?

/-- Embeds Command::new (src/main.rs:86-110). Only the byte-string
patterns AUTH, SYST and USER are matched; every other verb falls through
to Unknown, carrying the already-uppercased verb (empty when the verb is
not valid UTF-8, from unwrap_or on src/main.rs:107). For USER, the
expect on String::from_utf8 (src/main.rs:102) panics when the argument is
not valid UTF-8; that panic is modelled as none. -/
def Command.new (input : ByteStr) : Option Command :=
  if verbOf input = ascii "AUTH" then some .Auth
  else if verbOf input = ascii "SYST" then some .Syst
  else if verbOf input = ascii "USER" then
    match argOf input with
    | some bytes => if validUtf8 bytes then some (.User bytes) else none
    | none => some (.User [])
  else some (.Unknown (if validUtf8 (verbOf input) then verbOf input else []))

/-- Data sockets are abstract handles (the accepted TcpStream of a
passive-mode negotiation). -/
abbrev DataChannel := Nat

/-- Embeds the Client struct (src/main.rs:148-153); the control socket
itself carries no state the dispatch reads, so it is not modelled. -/
structure Client where
  cwd : ByteStr
  name : Option ByteStr
  data_writer : Option DataChannel
  deriving DecidableEq

/-- Embeds Client::new (src/main.rs:156-163): cwd is the root path, no
user name, no data channel. -/
def Client.new : Client :=
  { cwd := ascii "/", name := none, data_writer := none }

/-- One directory entry as seen by the List arm: entry_ok is whether the
read_dir iterator yielded Ok for it (src/main.rs:242), the rest is what
add_file_info would inspect (src/main.rs:292-315). -/
structure FileEntry where
  entry_ok : Bool
  path : ByteStr
  is_dir : Bool
  meta_ok : Bool
  readonly : Bool
  deriving DecidableEq

/-- The operating-system and filesystem effects one dispatch may consult:
whether TcpListener::bind succeeds (src/main.rs:216), what
listener.incoming().next() yields (src/main.rs:217; none models both the
None and the Some(Err) cases), and what read_dir(".") yields
(src/main.rs:240; none models Err, on which unwrap panics). -/
structure Env where
  bind_ok : Bool
  accept : Option DataChannel
  read_dir : Option (List FileEntry)
  deriving DecidableEq

/-- A control-connection reply: the ResultCode and the message passed to
send_cmd. -/
abbrev Response := ResultCode × ByteStr

/-- Everything one dispatch produces: the updated client, the send_cmd
replies on the control stream in order, the ports passed to
TcpListener::bind, the argument of each send_data call, and the bytes
actually written to the data channel. -/
structure StepOut where
  client : Client
  responses : List Response
  binds : List Nat
  data_send_calls : List ByteStr
  data_bytes : ByteStr
  deriving DecidableEq

/-- Embeds send_data (src/main.rs:290). Its body is empty, so it writes
nothing: the bytes already on the data channel are returned unchanged. -/
def send_data (written : ByteStr) (_s : ByteStr) : ByteStr := written

/-- Embeds add_file_info (src/main.rs:292-315). The function computes the
directory flag, the metadata (returning early when it cannot be read),
the final path component and the permission string, but never appends
anything to out: every control path leaves out exactly as it was. -/
def add_file_info (_path : ByteStr) (out : ByteStr) : ByteStr := out

/-- The inner loop of the List arm (src/main.rs:241-245): for each entry
yielded Ok by the iterator, add_file_info is called on its path with the
accumulated out. -/
def inner_loop (entries : List FileEntry) (out : ByteStr) : ByteStr :=
  match entries with
  | [] => out
  | e :: rest => inner_loop rest (if e.entry_ok then add_file_info e.path out else out)

/-- The outer loop of the List arm (src/main.rs:240-247). The source
iterates read_dir's entries and, per outer entry, runs an inner loop over
`dir` — an undefined name, so the source file does not compile; it is
read here charitably as the same directory's entries — and then calls
send_data with the accumulated out. Returns the argument of each
send_data call in order, and the final bytes written to the data
channel. -/
def list_outer (all : List FileEntry) (outer : List FileEntry) (out : ByteStr)
    (written : ByteStr) : List ByteStr × ByteStr :=
  match outer with
  | [] => ([], written)
  | _e :: rest =>
      let out2 := inner_loop all out
      let written2 := send_data written out2
      let step := list_outer all rest out2 written2
      (out2 :: step.1, step.2)

/-- Embeds Client::handle_cmd (src/main.rs:165-287) as a state
transformer. The Env supplies network and filesystem effects; none models
a panicking unwrap. Replies are the send_cmd calls in order. -/
def handle_cmd (env : Env) (c : Client) : Command → Option StepOut
  | .Auth =>
      some ⟨c, [(.CommandNotImplemented, ascii "Not Implemented")], [], [], []⟩
  | .NoOp =>
      some ⟨c, [(.Ok, ascii "Doing nothing...")], [], [], []⟩
  | .Syst =>
      some ⟨c, [(.Ok, ascii "I won't tell")], [], [], []⟩
  | .Pwd =>
      let msg := if validUtf8 c.cwd then c.cwd else []
      if msg ≠ [] then
        some ⟨c, [(.PATHNAMECreated, ascii "\"/" ++ msg ++ ascii "\" ")], [], [], []⟩
      else
        some ⟨c, [(.FileNotFound, ascii "no such file or directory")], [], [], []⟩
  | .TypeCmd =>
      some ⟨c, [(.Ok, ascii "Transfer type changed successfully")], [], [], []⟩
  | .Pasv =>
      if c.data_writer.isSome then
        some ⟨c, [(.DataConnectionAlreadyOpen, ascii "already listening....")], [], [], []⟩
      else
        let port : Nat := 43210
        let reply : Response :=
          (.EnteringPassiveMode,
            ascii ("127.0.0.1," ++ toString (port >>> 8) ++ "," ++ toString (port &&& 0xFF)))
        if env.bind_ok then
          match env.accept with
          | some sock =>
              some ⟨{ c with data_writer := some sock }, [reply], [port], [], []⟩
          | none =>
              some ⟨c, [reply, (.ServiceNotAvailable, ascii "issue happend...")],
                [port], [], []⟩
        else none
  | .List =>
      match c.data_writer with
      | some _ =>
          match env.read_dir with
          | none => none
          | some entries =>
              let step := list_outer entries entries [] []
              some ⟨{ c with data_writer := none },
                [(.DataConnectionAlreadyOpen, ascii "starting to list directory....."),
                 (.ClosingDataConnection, ascii "Transfer done")],
                [], step.1, step.2⟩
      | none =>
          some ⟨c, [(.ConnectionClosed, ascii "No opened data connection")], [], [], []⟩
  | .User username =>
      if username = [] then
        some ⟨c, [(.InvalidParameterOrArgument, ascii "invalid username")], [], [], []⟩
      else
        some ⟨{ c with name := some username },
          [(.UserLoggedIn, ascii "welcome " ++ username ++ ascii "!")], [], [], []⟩
  | .Unknown s =>
      some ⟨c, [(.UnknownCommand, ascii "command " ++ s ++ ascii " not Implemented")],
        [], [], []⟩

/-- Runs a sequence of parsed commands through handle_cmd, threading the
client state, as the session read loop would dispatch them one by one;
none as soon as any dispatch panics. -/
def runCmds (env : Env) (c : Client) : List Command → Option Client
  | [] => some c
  | cmd :: rest =>
      match handle_cmd env c cmd with
      | some o => runCmds env o.client rest
      | none => none

/-- Embeds send_cmd (src/main.rs:330-338): the wire line is the numeric
code, a space and the message when the message is nonempty, the numeric
code alone otherwise, terminated by CRLF. -/
def send_cmd_wire (code : ResultCode) (message : ByteStr) : ByteStr :=
  if message = [] then ascii (toString code.num) ++ ascii "\r\n"
  else ascii (toString code.num) ++ ascii " " ++ message ++ ascii "\r\n"

/-- Embeds the per-connection body of the accept loop in main
(src/main.rs:345-357): on an accepted stream the server writes the raw
bytes of "hello" and nothing else; handle_client is never invoked, and no
command is ever read from the connection. -/
def main_on_accept : ByteStr := ascii "hello"

/-- Embeds handle_client (src/main.rs:319-328): the one thing it does is
send ServiceReadyForNewUser with a welcome message (the client loop below
it is commented out). This function is dead code: main never calls it. -/
def handle_client_wire : ByteStr :=
  send_cmd_wire .ServiceReadyForNewUser (ascii "Welcome to this Rust FTP")

/-- A benign environment for concrete evaluations: bind succeeds, a data
connection is accepted, the directory reads back empty. -/
def env0 : Env :=
  { bind_ok := true, accept := some 0, read_dir := some [] }

/-- Helper: no dispatch arm of handle_cmd ever writes the cwd field. -/
theorem handle_cmd_cwd (env : Env) (c : Client) (cmd : Command) (o : StepOut)
    (h : handle_cmd env c cmd = some o) : o.client.cwd = c.cwd := by
  cases cmd <;> simp only [handle_cmd] at h <;>
    (repeat' split at h) <;>
    (try simp only [Option.some.injEq] at h) <;>
    (try subst h) <;> first | rfl | simp_all

/-- C1: the claim says PASV binds a fresh OS-assigned ephemeral port so
two concurrent sessions get distinct ports. The code instead binds the
statically fixed port 43210 on every PASV with no open data channel,
whatever the session state or environment: any two sessions bind the same
port. -/
theorem pasv_binds_fixed_port (env1 env2 : Env) (c1 c2 : Client)
    (h1 : c1.data_writer = none) (h2 : c2.data_writer = none)
    (hb1 : env1.bind_ok = true) (hb2 : env2.bind_ok = true) :
    ∃ o1 o2, handle_cmd env1 c1 .Pasv = some o1 ∧ handle_cmd env2 c2 .Pasv = some o2 ∧
      o1.binds = [43210] ∧ o2.binds = o1.binds := by
  cases ha1 : env1.accept <;> cases ha2 : env2.accept <;>
    simp [handle_cmd, h1, h2, hb1, hb2, ha1, ha2]

/-- Witness for C1 at two concrete sessions. -/
theorem pasv_binds_fixed_port_witness :
    ∃ o1 o2, handle_cmd env0 Client.new .Pasv = some o1 ∧
      handle_cmd { env0 with accept := none } Client.new .Pasv = some o2 ∧
      o1.binds = [43210] ∧ o2.binds = o1.binds :=
  pasv_binds_fixed_port env0 { env0 with accept := none } Client.new Client.new
    rfl rfl rfl rfl

/-- C2: the claim says every known verb (AUTH, LIST, SYST, NOOP, PWD,
TYPE, PASV, USER) parses, case-insensitively, to its typed variant. The
parser only matches AUTH, SYST and USER; LIST, NOOP, PWD, TYPE and PASV
all fall through to Unknown, in any case. AUTH, SYST and USER do parse as
claimed. -/
theorem known_verbs_parse_to_unknown :
    Command.new (ascii "LIST") = some (.Unknown (ascii "LIST")) ∧
    Command.new (ascii "NOOP") = some (.Unknown (ascii "NOOP")) ∧
    Command.new (ascii "PWD") = some (.Unknown (ascii "PWD")) ∧
    Command.new (ascii "TYPE") = some (.Unknown (ascii "TYPE")) ∧
    Command.new (ascii "PASV") = some (.Unknown (ascii "PASV")) ∧
    Command.new (ascii "pasv") = some (.Unknown (ascii "PASV")) ∧
    Command.new (ascii "AUTH") = some .Auth ∧
    Command.new (ascii "auth") = some .Auth ∧
    Command.new (ascii "SYST") = some .Syst ∧
    Command.new (ascii "user alice") = some (.User (ascii "alice")) := by
  decide

/-- C3: the claim says the listing is produced by one flat iteration and
written to the data channel as a single write. On a two-entry directory
the List arm instead calls send_data once per outer entry (twice here),
each call passing the accumulated out — which is empty, because
add_file_info never appends — and, send_data having an empty body, zero
bytes ever reach the data channel. -/
theorem list_nested_loop_writes_nothing :
    handle_cmd
      { bind_ok := true, accept := some 0,
        read_dir := some [⟨true, ascii "a.txt", false, true, false⟩,
                          ⟨true, ascii "b.txt", false, true, false⟩] }
      { Client.new with data_writer := some 9 } .List =
    some ⟨Client.new,
      [(.DataConnectionAlreadyOpen, ascii "starting to list directory....."),
       (.ClosingDataConnection, ascii "Transfer done")],
      [], [[], []], []⟩ := by
  decide

/-- C4: the claim says every accepted control connection first receives
exactly one ServiceReadyForNewUser (220) line. The accept loop in main
instead writes the raw bytes "hello" (first byte 104, letter h) and never
calls handle_client; no send_cmd line for code 220 (first byte 50, digit
2) can equal it. handle_client, which would send the greeting, is dead
code. -/
theorem greeting_not_sent_on_accept :
    main_on_accept.head? = some 104 ∧
    (∀ msg, (send_cmd_wire .ServiceReadyForNewUser msg).head? = some 50) ∧
    (∀ msg, main_on_accept ≠ send_cmd_wire .ServiceReadyForNewUser msg) ∧
    handle_client_wire = ascii "220 Welcome to this Rust FTP\r\n" := by
  have h220 : ascii (toString (ResultCode.num .ServiceReadyForNewUser)) = [50, 50, 48] := by
    decide
  have hw : ∀ msg, (send_cmd_wire .ServiceReadyForNewUser msg).head? = some 50 := by
    intro msg
    unfold send_cmd_wire
    split <;> rw [h220] <;> rfl
  refine ⟨by decide, hw, ?_, by decide⟩
  intro msg h
  have h50 := hw msg
  rw [← h] at h50
  exact absurd h50 (by decide)

/-- Witness for C4 at the concrete greeting message. -/
theorem greeting_not_sent_on_accept_witness :
    ¬ main_on_accept = send_cmd_wire .ServiceReadyForNewUser (ascii "Welcome to this Rust FTP") :=
  greeting_not_sent_on_accept.2.2.1 (ascii "Welcome to this Rust FTP")

/-- C5: dispatching User(name) with nonempty name sets the session's
identity to name and replies UserLoggedIn; with an empty name it leaves
the whole state unchanged and replies InvalidParameterOrArgument. -/
theorem user_dispatch_sets_identity (env : Env) (c : Client) (username : ByteStr) :
    (username ≠ [] →
      handle_cmd env c (.User username) =
        some ⟨{ c with name := some username },
          [(.UserLoggedIn, ascii "welcome " ++ username ++ ascii "!")], [], [], []⟩) ∧
    (username = [] →
      handle_cmd env c (.User username) =
        some ⟨c, [(.InvalidParameterOrArgument, ascii "invalid username")], [], [], []⟩) := by
  constructor <;> intro h <;> simp [handle_cmd, h]

/-- Witness for C5 at the fresh session and the name alice. -/
theorem user_dispatch_sets_identity_witness :
    handle_cmd env0 Client.new (.User (ascii "alice")) =
      some ⟨{ Client.new with name := some (ascii "alice") },
        [(.UserLoggedIn, ascii "welcome " ++ ascii "alice" ++ ascii "!")], [], [], []⟩ :=
  (user_dispatch_sets_identity env0 Client.new (ascii "alice")).1 (by decide)

/-- C6: a second Pasv while a data channel is open replies
DataConnectionAlreadyOpen, binds nothing, and returns the session state
(data channel included) exactly unchanged. -/
theorem pasv_already_open_unchanged (env : Env) (c : Client)
    (h : c.data_writer.isSome = true) :
    handle_cmd env c .Pasv =
      some ⟨c, [(.DataConnectionAlreadyOpen, ascii "already listening....")], [], [], []⟩ := by
  simp [handle_cmd, h]

/-- Witness for C6 at a session holding data channel 3. -/
theorem pasv_already_open_unchanged_witness :
    handle_cmd env0 { Client.new with data_writer := some 3 } .Pasv =
      some ⟨{ Client.new with data_writer := some 3 },
        [(.DataConnectionAlreadyOpen, ascii "already listening....")], [], [], []⟩ :=
  pasv_already_open_unchanged env0 { Client.new with data_writer := some 3 } rfl

/-- C7: the claim says the EnteringPassiveMode payload is the six
comma-separated values h1,h2,h3,h4,p1,p2. The code's reply is instead
"127.0.0.1,168,202": the hardcoded loopback address kept dot-separated,
followed by the two port bytes of the fixed port 43210 — a three-field
payload, not the claimed six-field one. -/
theorem pasv_reply_malformed (env : Env) (c : Client)
    (h : c.data_writer = none) (hb : env.bind_ok = true) :
    (∃ o, handle_cmd env c .Pasv = some o ∧
        o.responses.head? = some (.EnteringPassiveMode, ascii "127.0.0.1,168,202")) ∧
    ascii "127.0.0.1,168,202" ≠ ascii "127,0,0,1,168,202" ∧
    43210 >>> 8 = 168 ∧ 43210 &&& 0xFF = 202 := by
  refine ⟨?_, by decide, by decide, by decide⟩
  cases ha : env.accept with
  | none =>
      refine ⟨⟨c, [(.EnteringPassiveMode, ascii "127.0.0.1,168,202"),
        (.ServiceNotAvailable, ascii "issue happend...")], [43210], [], []⟩, ?_, rfl⟩
      simp [handle_cmd, h, hb, ha]
      decide
  | some sock =>
      refine ⟨⟨{ c with data_writer := some sock },
        [(.EnteringPassiveMode, ascii "127.0.0.1,168,202")], [43210], [], []⟩, ?_, rfl⟩
      simp [handle_cmd, h, hb, ha]
      decide

/-- Witness for C7 at the fresh session in the benign environment. -/
theorem pasv_reply_malformed_witness :
    (∃ o, handle_cmd env0 Client.new .Pasv = some o ∧
        o.responses.head? = some (.EnteringPassiveMode, ascii "127.0.0.1,168,202")) ∧
    ascii "127.0.0.1,168,202" ≠ ascii "127,0,0,1,168,202" ∧
    43210 >>> 8 = 168 ∧ 43210 &&& 0xFF = 202 :=
  pasv_reply_malformed env0 Client.new rfl rfl

/-- C8 counterexample: the parser does not totally succeed — on the line
USER followed by the non-UTF-8 byte 0xFF the expect in Command::new
panics (modelled none) — and an unrecognized verb is carried uppercased,
not raw: the line foo parses to Unknown FOO. -/
theorem parser_totality_counterexample :
    Command.new (ascii "USER " ++ [0xFF]) = none ∧
    Command.new (ascii "foo") = some (.Unknown (ascii "FOO")) := by
  decide

/-- C8 amended: on every raw input line the parser produces exactly one
Command, except that a USER line whose argument is not valid UTF-8
panics; unrecognized input yields Unknown carrying the uppercase-
normalized verb (empty when the verb is itself not valid UTF-8); the
empty line yields Unknown of the empty string. -/
theorem parser_amended_total (input : ByteStr) :
    ((verbOf input = ascii "USER" ∧ ∃ d, argOf input = some d ∧ validUtf8 d = false) ∨
      (Command.new input).isSome = true) ∧
    (verbOf input ≠ ascii "AUTH" → verbOf input ≠ ascii "SYST" →
      verbOf input ≠ ascii "USER" →
      Command.new input =
        some (.Unknown (if validUtf8 (verbOf input) then verbOf input else []))) ∧
    Command.new [] = some (.Unknown []) := by
  have hSA : ascii "SYST" ≠ ascii "AUTH" := by decide
  have hUA : ascii "USER" ≠ ascii "AUTH" := by decide
  have hUS : ascii "USER" ≠ ascii "SYST" := by decide
  refine ⟨?_, ?_, by decide⟩
  · by_cases hA : verbOf input = ascii "AUTH"
    · right; simp [Command.new, hA]
    by_cases hS : verbOf input = ascii "SYST"
    · right; simp [Command.new, hS, hSA]
    by_cases hU : verbOf input = ascii "USER"
    · cases hd : argOf input with
      | none => right; simp [Command.new, hU, hUA, hUS, hd]
      | some d =>
          cases hv : validUtf8 d with
          | true => right; simp [Command.new, hU, hUA, hUS, hd, hv]
          | false => exact Or.inl ⟨hU, d, rfl, hv⟩
    · right; simp [Command.new, hA, hS, hU]
  · intro hA hS hU
    simp [Command.new, hA, hS, hU]

/-- Witness for the amended C8 at the line foo bar. -/
theorem parser_amended_total_witness :
    Command.new (ascii "foo bar") =
      some (.Unknown (if validUtf8 (verbOf (ascii "foo bar"))
        then verbOf (ascii "foo bar") else [])) :=
  (parser_amended_total (ascii "foo bar")).2.1 (by decide) (by decide) (by decide)

/-- C9: the claim says n dispatches of the NOOP line each yield Ok and
never change state. The line NOOP in fact parses to Unknown NOOP (the
parser never produces NoOp), so each dispatch replies UnknownCommand
(500), not Ok (200); the session state is indeed unchanged however often
the line is dispatched. -/
theorem noop_line_yields_unknown_command (env : Env) (c : Client) (n : Nat) :
    Command.new (ascii "NOOP") = some (.Unknown (ascii "NOOP")) ∧
    handle_cmd env c (.Unknown (ascii "NOOP")) =
      some ⟨c, [(.UnknownCommand, ascii "command NOOP not Implemented")], [], [], []⟩ ∧
    runCmds env c (List.replicate n (.Unknown (ascii "NOOP"))) = some c ∧
    ResultCode.UnknownCommand.num = 500 ∧ ResultCode.Ok.num = 200 := by
  have hmsgN : ascii "command " ++ ascii "NOOP" ++ ascii " not Implemented" =
      ascii "command NOOP not Implemented" := by decide
  have hstep : handle_cmd env c (.Unknown (ascii "NOOP")) =
      some ⟨c, [(.UnknownCommand, ascii "command NOOP not Implemented")], [], [], []⟩ := by
    simp [handle_cmd, hmsgN]
  refine ⟨by decide, hstep, ?_, by decide, by decide⟩
  induction n with
  | zero => rfl
  | succ k ih =>
      simp only [List.replicate, runCmds, hstep]
      exact ih

/-- C10: no command ever writes the working directory: a fresh session
starts at the root path, every dispatch preserves cwd, and any command
sequence run from a fresh session ends with cwd still the root path. -/
theorem cwd_constant_root (env : Env) :
    Client.new.cwd = ascii "/" ∧
    (∀ c cmd o, handle_cmd env c cmd = some o → o.client.cwd = c.cwd) ∧
    (∀ cmds c, runCmds env Client.new cmds = some c → c.cwd = ascii "/") := by
  have key : ∀ cmds (st c : Client), runCmds env st cmds = some c → c.cwd = st.cwd := by
    intro cmds
    induction cmds with
    | nil =>
        intro st c h
        simp only [runCmds, Option.some.injEq] at h
        rw [← h]
    | cons cmd rest ih =>
        intro st c h
        simp only [runCmds] at h
        cases ho : handle_cmd env st cmd with
        | none => rw [ho] at h; exact Option.noConfusion h
        | some o =>
            rw [ho] at h
            rw [ih o.client c h, handle_cmd_cwd env st cmd o ho]
  exact ⟨rfl, fun c cmd o h => handle_cmd_cwd env c cmd o h,
    fun cmds c h => key cmds Client.new c h⟩

/-- Witness for C10 over the concrete session USER alice, PASV, LIST. -/
theorem cwd_constant_root_witness :
    (⟨ascii "/", some (ascii "alice"), none⟩ : Client).cwd = ascii "/" :=
  (cwd_constant_root env0).2.2 [.User (ascii "alice"), .Pasv, .List]
    ⟨ascii "/", some (ascii "alice"), none⟩ (by decide)

end FtpSpec
